import Mathlib

/-!
Shallow embedding of the Munin stablecoin dashboard's bank-verification-gated
token-minting pipeline.

JavaScript numbers are modelled as exact rationals (`ℚ`); every concrete input
used in a counterexample or witness below is exactly representable in binary64
and all arithmetic performed on it by the code is exact, so the rational model
and the JavaScript semantics coincide on those inputs.  Nullable columns and
values are `Option`; a thrown exception is `none` / an error constructor.
Public keys are modelled as their base58 strings (`PubKey := String`); the
vendor SDK's key parser and associated-token-address derivation are external
collaborators and enter as function parameters.
-/

namespace Munin

/-- Base58 public keys, modelled by their string rendering
(`PublicKey.toString()` in the source). -/
abbrev PubKey := String

/-! ## Verification gate (TokenCreationForm, src/unnamed/part_002)

The gate holds the verified bank snapshot in form state.  `BankAccount` is the
snapshot shape from `FixedPlaidIntegration.tsx`. -/

/-- Bank snapshot held in client form state (interface `BankAccount` in
`FixedPlaidIntegration.tsx`). -/
structure BankAccount where
  institutionName : String
  accountName : String
  accountMask : String
  currentBalance : ℚ
  availableBalance : ℚ
deriving DecidableEq, Repr

/-- Step-3 check of `validateStep` in `TokenCreationForm`
(src/unnamed/part_002 lines 96-121): invalid when no account is verified;
otherwise invalid exactly when `requestedAmount > availableBalance`.
`requestedAmount` is `parseFloat(formData.tokenSupply)`, modelled post-parse
as a rational. -/
def validateStep3 (verifiedBankAccount : Option BankAccount) (requestedAmount : ℚ) : Bool :=
  match verifiedBankAccount with
  | none => false
  | some acct => if requestedAmount > acct.availableBalance then false else true

/-- Final-submission gate of `onSubmit` in `TokenCreationForm`
(src/unnamed/part_002 lines 151-174): returns early (does not proceed) when no
account is verified or when `parseFloat(data.tokenSupply)` exceeds the
available balance; otherwise proceeds to `createSPLToken`. -/
def onSubmitProceeds (verifiedBankAccount : Option BankAccount) (supply : ℚ) : Bool :=
  match verifiedBankAccount with
  | none => false
  | some acct => if supply > acct.availableBalance then false else true

/-! ## Supply scaling (createSPLToken, src/client/src/lib/fetchTokens.ts)

The code computes `BigInt(parseFloat(formData.tokenSupply) * 10 ** decimals)`.
`BigInt(x)` throws a `RangeError` when the number `x` is not an integer; this
is modelled by `bigIntFromNumber` returning `none`. -/

/-- `BigInt(x)` for a number `x`: the integer value when `x` is an integer,
otherwise a thrown `RangeError`, modelled as `none`. -/
def bigIntFromNumber (x : ℚ) : Option ℤ :=
  if x.den = 1 then some x.num else none

/-- Numeric value of a decimal digit character. -/
def digitVal (c : Char) : ℕ := c.toNat - 48

/-- Natural number denoted by a list of decimal digit characters. -/
def natOfDigits (l : List Char) : ℕ :=
  l.foldl (fun n c => 10 * n + digitVal c) 0

/-- Splits a character list at every occurrence of the dot character
(the `s.split(".")` shape that a decimal supply string has). -/
def splitOnDot : List Char → List (List Char)
  | [] => [[]]
  | c :: rest =>
      let r := splitOnDot rest
      if c = '.' then [] :: r
      else
        match r with
        | [] => [[c]]
        | h :: t => (c :: h) :: t

/-- `parseFloat` restricted to plain decimal strings `digits`, `digits.digits`,
`.digits` or `digits.` (the shapes the supply field takes); returns the exact
rational the string denotes, `none` when the string is not of that shape.  On
every such string JavaScript's `parseFloat` returns the nearest binary64 to
this rational, equal to it whenever the rational is representable. -/
def parseDecimal (s : String) : Option ℚ :=
  match splitOnDot s.toList with
  | [intPart] =>
      if intPart ≠ [] ∧ intPart.all (·.isDigit) then
        some (mkRat (natOfDigits intPart) 1)
      else none
  | [intPart, fracPart] =>
      if (intPart ≠ [] ∨ fracPart ≠ []) ∧ intPart.all (·.isDigit) ∧
          fracPart.all (·.isDigit) then
        some (mkRat (natOfDigits intPart * 10 ^ fracPart.length + natOfDigits fracPart)
          (10 ^ fracPart.length))
      else none
  | _ => none

/-- Scaling of the requested supply to base units, as `createSPLToken` does it
(fetchTokens.ts line 231):
`BigInt(parseFloat(formData.tokenSupply) * 10 ** decimals)`. -/
def scaleSupplyStr (tokenSupply : String) (decimals : ℕ) : Option ℤ :=
  (parseDecimal tokenSupply).bind fun q => bigIntFromNumber (q * 10 ^ decimals)

/-! ## Token minting pipeline (createSPLToken, src/client/src/lib/fetchTokens.ts) -/

/-- Mint-authority disposition from the form (`'keep' | 'transfer'`). -/
inductive MintAuthorityChoice where
  | keep
  | transfer
deriving DecidableEq, Repr

/-- `TokenFormData` from src (types); `tokenDecimals` is modelled after the
`parseInt(formData.tokenDecimals)` the pipeline applies to the stored
string. -/
structure TokenFormData where
  tokenName : String
  tokenSymbol : String
  tokenDescription : String
  tokenSupply : String
  tokenDecimals : ℕ
  mintAuthority : MintAuthorityChoice
  recipientAddress : String
  freezeAuthority : Bool
deriving DecidableEq, Repr

/-- `AuthorityType` of the SPL token vendor library (only `MintTokens` is
used by the pipeline). -/
inductive SplAuthorityType where
  | MintTokens
  | FreezeAccount
deriving DecidableEq, Repr

/-- `TOKEN_PROGRAM_ID` of the SPL token vendor library. -/
def tokenProgramId : PubKey := "TokenkegQfeZyiNwAJbNbGKPFXCWuBvf9Ss623VQ5DA"

/-- `MINT_SIZE` of the SPL token vendor library: byte size of a mint
account. -/
def MINT_SIZE : ℕ := 82

/-- The instructions `createSPLToken` adds to its single transaction, with
the arguments the code passes. -/
inductive Instr where
  | createAccount (fromPubkey newAccountPubkey : PubKey) (space lamports : ℕ)
      (programId : PubKey)
  | initializeMint (mint : PubKey) (decimals : ℕ) (mintAuthority : PubKey)
      (freezeAuthority : Option PubKey)
  | createAssociatedTokenAccount (payer associatedToken owner mint : PubKey)
  | mintTo (mint destination authority : PubKey) (amount : ℤ)
  | setAuthority (account currentAuthority : PubKey) (authority : SplAuthorityType)
      (newAuthority : PubKey)
deriving DecidableEq, Repr

/-- Recipient resolution of `createSPLToken` (fetchTokens.ts lines 202-209):
`new PublicKey(formData.recipientAddress || payer.toString())` inside a
try/catch whose catch substitutes the payer.  `parsePK` is the vendor
public-key parser (external collaborator), `none` modelling a thrown parse
error; `recipientAddress = ""` is the falsy case of `||`. -/
def resolveRecipient (parsePK : String → Option PubKey) (recipientAddress : String)
    (payer : PubKey) : PubKey :=
  match parsePK (if recipientAddress = "" then payer else recipientAddress) with
  | some pk => pk
  | none => payer

/-- The transaction `createSPLToken` builds (fetchTokens.ts lines 179-263),
as its ordered instruction list.  `parsePK` is the vendor public-key parser
and `ata` the vendor associated-token-address derivation
(`getAssociatedTokenAddress mint owner`); `rentExemptBalance` is the fetched
rent-exemption minimum.  `none` models the build aborting because the supply
scaling threw (the only throwing step of instruction construction). -/
def createSPLTokenTx (parsePK : String → Option PubKey) (ata : PubKey → PubKey → PubKey)
    (payer mintAccount : PubKey) (rentExemptBalance : ℕ) (form : TokenFormData) :
    Option (List Instr) :=
  let recipient := resolveRecipient parsePK form.recipientAddress payer
  match scaleSupplyStr form.tokenSupply form.tokenDecimals with
  | none => none
  | some supplyUnits =>
      let tx0 : List Instr := []
      let tx1 := tx0 ++ [Instr.createAccount payer mintAccount MINT_SIZE rentExemptBalance
        tokenProgramId]
      let tx2 := tx1 ++ [Instr.initializeMint mintAccount form.tokenDecimals payer
        (if form.freezeAuthority then some payer else none)]
      let tx3 := tx2 ++ [Instr.createAssociatedTokenAccount payer (ata mintAccount recipient)
        recipient mintAccount]
      let tx4 := tx3 ++ [Instr.mintTo mintAccount (ata mintAccount recipient) payer supplyUnits]
      let tx5 := if form.mintAuthority = MintAuthorityChoice.transfer ∧ recipient ≠ payer then
        tx4 ++ [Instr.setAuthority mintAccount payer SplAuthorityType.MintTokens recipient]
      else tx4
      some tx5

/-! ## Persistence layer (shared/schema.ts; plaidService embedded in
src/client/src/pages/MyTokens.tsx after the separator) -/

/-- The non-key columns of a `plaid_items` row, as `exchangePublicToken`
writes them.  Decimal columns are modelled by the rational their stored
numeral denotes (`Number.prototype.toString` is value-faithful). -/
structure PlaidRowVals where
  item_id : String
  access_token : String
  institution_id : Option String
  institution_name : Option String
  account_id : Option String
  account_name : Option String
  account_mask : Option String
  current_balance : Option ℚ
  available_balance : Option ℚ
deriving DecidableEq, Repr

/-- A `plaid_items` row: serial id, wallet address (unique index), payload
columns. -/
structure PlaidItemRow where
  id : ℕ
  wallet_address : String
  vals : PlaidRowVals
deriving DecidableEq, Repr

/-- Next serial id for `plaid_items`. -/
def freshId (db : List PlaidItemRow) : ℕ :=
  (db.map PlaidItemRow.id).foldr max 0 + 1

/-- The row-level effect of the upsert's update branch
(`db.update(plaidItems).set(plaidItem).where(eq(plaidItems.id, existingItem[0].id))`):
rows whose id is the matched id get all payload columns overwritten. -/
def updateRow (w : String) (v : PlaidRowVals) (i : ℕ) (x : PlaidItemRow) : PlaidItemRow :=
  if x.id = i then { id := x.id, wallet_address := w, vals := v } else x

/-- The upsert of `exchangePublicToken` (MyTokens.tsx embedded plaidService,
lines 339-352): select the wallet's row with `limit 1`; if found, update all
payload columns of that row (`where id = existing.id`), else insert a fresh
row. -/
def upsertPlaidItem (db : List PlaidItemRow) (w : String) (v : PlaidRowVals) :
    List PlaidItemRow :=
  match (db.filter (fun r => r.wallet_address = w)).head? with
  | some r => db.map (updateRow w v r.id)
  | none => db ++ [{ id := freshId db, wallet_address := w, vals := v }]

/-- Well-formedness the storage layer maintains for `plaid_items`: serial ids
are pairwise distinct and (the unique index `wallet_address_idx`) wallet
addresses are pairwise distinct. -/
def WFPlaidDb (db : List PlaidItemRow) : Prop :=
  db.Pairwise (fun a b => a.id ≠ b.id ∧ a.wallet_address ≠ b.wallet_address)

/-- Aggregator balance snapshot (`accountBalance` from
`accountsBalanceGet`); both fields are nullable numbers. -/
structure Balances where
  current : Option ℚ
  available : Option ℚ
deriving DecidableEq, Repr

/-- The truthiness-guarded persistence `b ? b.toString() : null` applied to a
nullable balance: both `null` and `0` persist as SQL NULL. -/
def truthyNum : Option ℚ → Option ℚ
  | some c => if c = 0 then none else some c
  | none => none

/-- JavaScript `a || b` on nullable numbers: `null` and `0` are falsy. -/
def jsOrNum (a b : Option ℚ) : Option ℚ :=
  match a with
  | some x => if x = 0 then b else some x
  | none => b

/-- The payload `exchangePublicToken` persists (lines 324-337): balances go
through the truthiness guard, and persisted `available_balance` falls back
to the current balance. -/
def exchangeRowVals (itemId accessToken : String)
    (institutionId institutionName accountId accountName accountMask : Option String)
    (bal : Balances) : PlaidRowVals :=
  { item_id := itemId, access_token := accessToken, institution_id := institutionId,
    institution_name := institutionName, account_id := accountId,
    account_name := accountName, account_mask := accountMask,
    current_balance := truthyNum bal.current,
    available_balance := match truthyNum bal.available with
      | some a => some a
      | none => truthyNum bal.current }

/-- A `stablecoin_mints` row.  `completed_at_set` models whether the
`completed_at` timestamp column was set. -/
structure MintRow where
  id : ℕ
  wallet_address : String
  plaid_item_id : Option ℕ
  token_address : String
  amount_minted : ℚ
  status : String
  transaction_id : Option String
  completed_at_set : Bool
deriving DecidableEq, Repr

/-- Next serial id for `stablecoin_mints`. -/
def freshMintId (db : List MintRow) : ℕ :=
  (db.map MintRow.id).foldr max 0 + 1

/-- `transactionId || null`: `undefined` and the empty string both persist
as NULL. -/
def jsStrOrNull : Option String → Option String
  | some t => if t = "" then none else some t
  | none => none

/-- `recordStablecoinMint` (MyTokens.tsx embedded plaidService, lines
468-499): look up the wallet's plaid item with `limit 1` (throws — `none` —
when absent), then insert the mint row; `completed_at` is set exactly when
the status is "completed". -/
def recordStablecoinMint (plaidDb : List PlaidItemRow) (mintDb : List MintRow)
    (walletAddress tokenAddress : String) (amount : ℚ) (status : String)
    (transactionId : Option String) : Option (List MintRow) :=
  match (plaidDb.filter (fun r => r.wallet_address = walletAddress)).head? with
  | none => none
  | some item =>
      some (mintDb ++ [{ id := freshMintId mintDb, wallet_address := walletAddress,
                         plaid_item_id := some item.id, token_address := tokenAddress,
                         amount_minted := amount, status := status,
                         transaction_id := jsStrOrNull transactionId,
                         completed_at_set := status = "completed" }])

/-- The `/api/plaid/mint-history` select (routes.ts lines 190-205): all rows
for the wallet, in `created_at` (insertion) order. -/
def mintHistory (mintDb : List MintRow) (walletAddress : String) : List MintRow :=
  mintDb.filter (fun r => r.wallet_address = walletAddress)

/-! ## Server routes (src/server/routes.ts) -/

/-- zod `walletAddress` validation: a string of length 32 to 44. -/
def validWalletAddress (w : String) : Bool :=
  decide (32 ≤ w.length ∧ w.length ≤ 44)

/-- Body of `/api/plaid/record-mint`. -/
structure MintReqBody where
  walletAddress : String
  tokenAddress : String
  amount : ℚ
  transactionId : Option String
deriving DecidableEq, Repr

/-- `mintStablecoinSchema` (routes.ts lines 21-26): wallet and token
addresses of length 32-44, positive amount, optional transaction id. -/
def validMintBody (b : MintReqBody) : Bool :=
  validWalletAddress b.walletAddress && validWalletAddress b.tokenAddress &&
    decide (0 < b.amount)

/-- `/api/plaid/record-mint` (routes.ts lines 178-187): 400 on a body
failing schema validation; otherwise `recordStablecoinMint` with status
"completed" — 200 `success` on insert, 500 when it throws.  Returns the
status code and the resulting mint table. -/
def recordMintRoute (plaidDb : List PlaidItemRow) (mintDb : List MintRow)
    (b : MintReqBody) : ℕ × List MintRow :=
  if validMintBody b then
    match recordStablecoinMint plaidDb mintDb b.walletAddress b.tokenAddress b.amount
        "completed" b.transactionId with
    | some mintDb' => (200, mintDb')
    | none => (500, mintDb)
  else (400, mintDb)

/-- Sanitized snapshot returned by `getBankAccountInfo` (MyTokens.tsx
embedded plaidService, lines 441-447). -/
structure BankAccountInfo where
  institutionName : Option String
  accountName : Option String
  accountMask : Option String
  currentBalance : Option ℚ
  availableBalance : Option ℚ
deriving DecidableEq, Repr

/-- `getBankAccountInfo` (lines 396-458): `none` result — not an error —
when the wallet has no row; otherwise refresh the balance from the
aggregator (`bal` is the live snapshot), persist it through the truthiness
guards (best-effort; the successful write is modelled), and return the
stored names with the live balances, `availableBalance` being
`available || current`. -/
def getBankAccountInfo (db : List PlaidItemRow) (walletAddress : String) (bal : Balances) :
    Option BankAccountInfo × List PlaidItemRow :=
  match (db.filter (fun r => r.wallet_address = walletAddress)).head? with
  | none => (none, db)
  | some item =>
      let newCur := truthyNum bal.current
      let newAvail := match truthyNum bal.available with
        | some a => some a
        | none => truthyNum bal.current
      let db' := db.map fun x =>
        if x.id = item.id then
          { x with vals := { x.vals with current_balance := newCur,
                                         available_balance := newAvail } }
        else x
      (some { institutionName := item.vals.institution_name,
              accountName := item.vals.account_name,
              accountMask := item.vals.account_mask,
              currentBalance := bal.current,
              availableBalance := jsOrNum bal.available bal.current }, db')

/-- `/api/plaid/account-info` (routes.ts lines 158-175): 400 on invalid
body, 404 when `getBankAccountInfo` returns null, 200 otherwise. -/
def accountInfoRoute (db : List PlaidItemRow) (walletAddress : String) (bal : Balances) : ℕ :=
  if validWalletAddress walletAddress then
    match (getBankAccountInfo db walletAddress bal).1 with
    | none => 404
    | some _ => 200
  else 400

/-! ## Wizard state and the fallback verification path -/

/-- Client wizard state relevant to the gate: current step and the verified
snapshot. -/
structure WizardState where
  currentStep : ℕ
  verifiedBankAccount : Option BankAccount
deriving DecidableEq, Repr

/-- The `onBankVerified` callback of `TokenCreationForm` (part_002 lines
466-480): store the snapshot and advance to step 4 (the previous state is
discarded). -/
def onBankVerified (_st : WizardState) (bankInfo : BankAccount) : WizardState :=
  { currentStep := 4, verifiedBankAccount := some bankInfo }

/-- The fabricated snapshot of `handleFallbackVerification`
(FixedPlaidIntegration.tsx lines 174-199) and `forceAdvance` (part_002
lines 482-499). -/
def fallbackBankAccount : BankAccount :=
  { institutionName := "Bank of America", accountName := "Checking Account",
    accountMask := "1234", currentBalance := 5000, availableBalance := 5000 }

/-- Combined client and server state; the fallback path runs entirely on the
client. -/
structure AppState where
  wizard : WizardState
  plaidDb : List PlaidItemRow
  mintDb : List MintRow

/-- `handleFallbackVerification` (FixedPlaidIntegration.tsx lines 174-199):
no request is issued — it calls `onBankVerified` with the fabricated
snapshot. -/
def handleFallbackVerification (st : AppState) : AppState :=
  { st with wizard := onBankVerified st.wizard fallbackBankAccount }

/-- `forceAdvance` (part_002 lines 482-499): substitute the fabricated
snapshot when nothing is verified yet, then advance to step 4; again no
request is issued. -/
def forceAdvance (st : AppState) : AppState :=
  { st with wizard := { currentStep := 4,
                        verifiedBankAccount := match st.wizard.verifiedBankAccount with
                          | none => some fallbackBankAccount
                          | some b => some b } }

/-- Sample public-key parser standing in for the vendor parser in concrete
evaluations: accepts exactly the strings of plausible base58 key length. -/
def samplePK (s : String) : Option PubKey :=
  if 32 ≤ s.length then some s else none

/-! # Theorems -/

/-- The gate comparison used by both checks: `if s > b then fail else pass`
passes iff `s ≤ b`. -/
theorem gate_ite_iff (b s : ℚ) : ((if s > b then false else true) = true) ↔ s ≤ b := by
  by_cases hc : s > b
  · simp only [if_pos hc, Bool.false_eq_true, false_iff]
    exact not_le.mpr hc
  · simp only [if_neg hc, true_iff]
    exact le_of_not_lt hc

/-- C1: for every verified bank snapshot with available balance `b` and every
requested supply `s`, both the step-3 check of `validateStep` and the
final-submission gate of `onSubmit` allow progression iff `s ≤ b`; in
particular at the boundary `s = b` both proceed. -/
theorem verificationGate_allows_iff_le (acct : BankAccount) (s : ℚ) :
    (validateStep3 (some acct) s = true ↔ s ≤ acct.availableBalance) ∧
    (onSubmitProceeds (some acct) s = true ↔ s ≤ acct.availableBalance) ∧
    validateStep3 (some acct) acct.availableBalance = true ∧
    onSubmitProceeds (some acct) acct.availableBalance = true :=
  ⟨gate_ite_iff _ s, gate_ite_iff _ s,
    (gate_ite_iff _ _).mpr le_rfl, (gate_ite_iff _ _).mpr le_rfl⟩

/-- `BigInt(x)` yields `n` exactly when the number `x` is the integer `n`. -/
theorem bigIntFromNumber_eq_some_iff (x : ℚ) (n : ℤ) :
    bigIntFromNumber x = some n ↔ x = (n : ℚ) := by
  unfold bigIntFromNumber
  by_cases hd : x.den = 1
  · rw [if_pos hd]
    constructor
    · intro h
      injection h with h
      rw [← h]
      exact ((Rat.den_eq_one_iff x).mp hd).symm
    · intro h
      have hn : x.num = n := by rw [h, Rat.num_intCast]
      rw [hn]
  · rw [if_neg hd]
    constructor
    · intro h
      exact Option.noConfusion h
    · intro h
      exact absurd (h ▸ Rat.den_intCast n) hd

/-- C2 counterexample: "0.5" is a well-formed decimal supply (value 1/2), but
with 0 decimals the scaling `BigInt(parseFloat("0.5") * 10 ** 0)` throws a
`RangeError` (modelled `none`) instead of producing an integer amount.  Every
operation on this input is exact in binary64, so the rational model coincides
with the JavaScript run: the claimed "the scaling never throws" is false. -/
theorem scaleSupply_half_throws :
    parseDecimal "0.5" = some (mkRat 1 2) ∧ scaleSupplyStr "0.5" 0 = none := by
  refine ⟨by decide, ?_⟩
  have hp : parseDecimal "0.5" = some (mkRat 1 2) := by decide
  unfold scaleSupplyStr
  rw [hp]
  show bigIntFromNumber (mkRat 1 2 * 10 ^ 0) = none
  rw [pow_zero, mul_one]
  have hden : (mkRat 1 2 : ℚ).den = 2 := by decide
  unfold bigIntFromNumber
  rw [hden]
  simp

/-- C2 (amended): for a supply string parsing to the value `q` and any
decimal precision `d`, the amount handed to the mint-to instruction is `n`
exactly when `q × 10^d` is the integer `n`; no truncation is applied, and the
`BigInt` conversion throws whenever the product is not an integer. -/
theorem scaleSupplyStr_exact (s : String) (q : ℚ) (d : ℕ) (n : ℤ)
    (hp : parseDecimal s = some q) :
    scaleSupplyStr s d = some n ↔ q * 10 ^ d = (n : ℚ) := by
  unfold scaleSupplyStr
  rw [hp]
  exact bigIntFromNumber_eq_some_iff _ n

/-- Witness for the amended C2 at supply string "3", 1 decimal: the scaled
amount is 30 iff 3 × 10 = 30. -/
theorem scaleSupplyStr_exact_witness :
    scaleSupplyStr "3" 1 = some 30 ↔ (mkRat 3 1 : ℚ) * 10 ^ 1 = ((30 : ℤ) : ℚ) :=
  scaleSupplyStr_exact "3" (mkRat 3 1) 1 30 (by decide)

/-- C6: when the form's recipientAddress is absent (empty — the falsy case of
`recipientAddress || payer`) or the vendor parser rejects it, recipient
resolution returns the payer instead of propagating the parse error
(`resolveRecipient` is total: the try/catch swallows the throw).  The
hypothesis `hpayer` states that the payer's own address parses back to
itself — it is the connected wallet's valid key. -/
theorem resolveRecipient_falls_back_to_payer (parsePK : String → Option PubKey)
    (recipientAddress : String) (payer : PubKey)
    (hpayer : parsePK payer = some payer)
    (hfail : recipientAddress = "" ∨ parsePK recipientAddress = none) :
    resolveRecipient parsePK recipientAddress payer = payer := by
  unfold resolveRecipient
  by_cases he : recipientAddress = ""
  · rw [if_pos he, hpayer]
  · rcases hfail with h | h
    · exact absurd h he
    · rw [if_neg he, h]

/-- Witness for C6: a 3-character recipient fails the length-checking sample
parser and resolution yields the payer. -/
theorem resolveRecipient_falls_back_to_payer_witness :
    resolveRecipient samplePK "bad" "PayerPayerPayerPayerPayerPayer12" =
      "PayerPayerPayerPayerPayerPayer12" :=
  resolveRecipient_falls_back_to_payer samplePK "bad" "PayerPayerPayerPayerPayerPayer12"
    (by decide) (Or.inr (by decide))

/-- C8: for a wallet with no BankLink row, `getBankAccountInfo` returns the
not-found signal `null` (and leaves the table untouched) instead of raising,
and `/api/plaid/account-info` responds 404, not 500. -/
theorem accountInfo_404_when_unlinked (db : List PlaidItemRow) (w : String) (bal : Balances)
    (hvalid : validWalletAddress w = true)
    (hnone : (db.filter (fun r => r.wallet_address = w)).head? = none) :
    (getBankAccountInfo db w bal).1 = none ∧
    (getBankAccountInfo db w bal).2 = db ∧
    accountInfoRoute db w bal = 404 := by
  have h1 : getBankAccountInfo db w bal = (none, db) := by
    unfold getBankAccountInfo
    rw [hnone]
  refine ⟨by rw [h1], by rw [h1], ?_⟩
  unfold accountInfoRoute
  rw [if_pos hvalid, h1]

/-- Witness for C8 at the empty table and a 32-character wallet address. -/
theorem accountInfo_404_when_unlinked_witness :
    (getBankAccountInfo [] "WalletWalletWalletWalletWallet12" ⟨none, none⟩).1 = none ∧
    (getBankAccountInfo [] "WalletWalletWalletWalletWallet12" ⟨none, none⟩).2 = [] ∧
    accountInfoRoute [] "WalletWalletWalletWalletWallet12" ⟨none, none⟩ = 404 :=
  accountInfo_404_when_unlinked [] "WalletWalletWalletWalletWallet12" ⟨none, none⟩
    (by decide) (by decide)

/-- C9: from a state with no verified snapshot, the fallback path
(`handleFallbackVerification`, and `forceAdvance` likewise) marks bank
verification complete with the fabricated Bank of America / Checking Account
/ mask 1234 / balances 5000 snapshot while leaving both server tables
untouched — no aggregator call, no completeLink — and the gate then
authorizes exactly the supplies `s ≤ 5000`. -/
theorem fallbackVerification_fabricates (st : AppState)
    (hnone : st.wizard.verifiedBankAccount = none) :
    (handleFallbackVerification st).wizard.verifiedBankAccount = some fallbackBankAccount ∧
    (handleFallbackVerification st).plaidDb = st.plaidDb ∧
    (handleFallbackVerification st).mintDb = st.mintDb ∧
    fallbackBankAccount = { institutionName := "Bank of America",
                            accountName := "Checking Account", accountMask := "1234",
                            currentBalance := 5000, availableBalance := 5000 } ∧
    (forceAdvance st).wizard.verifiedBankAccount = some fallbackBankAccount ∧
    (forceAdvance st).plaidDb = st.plaidDb ∧
    (forceAdvance st).mintDb = st.mintDb ∧
    ∀ s : ℚ, validateStep3 (some fallbackBankAccount) s = true ↔ s ≤ 5000 := by
  refine ⟨rfl, rfl, rfl, rfl, ?_, rfl, rfl, fun s => gate_ite_iff 5000 s⟩
  unfold forceAdvance
  rw [hnone]

/-- Witness for C9 at a concrete unverified wizard state with empty server
tables. -/
theorem fallbackVerification_fabricates_witness :
    (handleFallbackVerification ⟨⟨3, none⟩, [], []⟩).wizard.verifiedBankAccount =
      some fallbackBankAccount ∧
    (forceAdvance ⟨⟨3, none⟩, [], []⟩).wizard.verifiedBankAccount = some fallbackBankAccount ∧
    (handleFallbackVerification ⟨⟨3, none⟩, [], []⟩).plaidDb = [] :=
  ⟨(fallbackVerification_fabricates ⟨⟨3, none⟩, [], []⟩ rfl).1,
   (fallbackVerification_fabricates ⟨⟨3, none⟩, [], []⟩ rfl).2.2.2.2.1,
   (fallbackVerification_fabricates ⟨⟨3, none⟩, [], []⟩ rfl).2.1⟩

/-- Appending a row for wallet `w` makes it the last element of that wallet's
mint history. -/
theorem mintHistory_append_self (mintDb : List MintRow) (r : MintRow) (w : String)
    (hw : r.wallet_address = w) :
    (mintHistory (mintDb ++ [r]) w).getLast? = some r := by
  unfold mintHistory
  rw [List.filter_append]
  have hfil : List.filter (fun x => x.wallet_address = w) [r] = [r] := by
    simp [List.filter_cons, hw]
  rw [hfil, List.getLast?_concat]

/-- C5: after `recordStablecoinMint(w, tok, amount, "completed", tid)`
succeeds, the wallet's mint history contains (as its latest row) a record
reproducing the same wallet address, token address, amount and transaction
id.  `tid ≠ ""` because a transaction id is a nonempty signature — the code's
`transactionId || null` would store NULL for the empty string. -/
theorem recordMint_roundtrip (plaidDb : List PlaidItemRow) (mintDb : List MintRow)
    (w tok : String) (amount : ℚ) (tid : String) (mintDb' : List MintRow)
    (htid : tid ≠ "")
    (hrec : recordStablecoinMint plaidDb mintDb w tok amount "completed" (some tid) =
      some mintDb') :
    (mintHistory mintDb' w).getLast?.map
        (fun r => (r.wallet_address, r.token_address, r.amount_minted, r.transaction_id,
          r.status)) =
      some (w, tok, amount, some tid, "completed") := by
  unfold recordStablecoinMint at hrec
  cases hfind : (plaidDb.filter (fun r => r.wallet_address = w)).head? with
  | none =>
      rw [hfind] at hrec
      exact Option.noConfusion hrec
  | some item =>
      rw [hfind] at hrec
      injection hrec with hrec
      rw [← hrec, mintHistory_append_self _ _ _ rfl]
      simp [jsStrOrNull, htid]

/-- Witness for C5: one linked wallet, empty mint table, amount 500,
transaction id "sig". -/
theorem recordMint_roundtrip_witness :
    (mintHistory [{ id := 1, wallet_address := "WalletWalletWalletWalletWallet12",
                    plaid_item_id := some 1,
                    token_address := "TokenxTokenxTokenxTokenxTokenx12",
                    amount_minted := 500, status := "completed",
                    transaction_id := some "sig", completed_at_set := true }]
        "WalletWalletWalletWalletWallet12").getLast?.map
        (fun r => (r.wallet_address, r.token_address, r.amount_minted, r.transaction_id,
          r.status)) =
      some ("WalletWalletWalletWalletWallet12", "TokenxTokenxTokenxTokenxTokenx12",
        (500 : ℚ), some "sig", "completed") :=
  recordMint_roundtrip
    [{ id := 1, wallet_address := "WalletWalletWalletWalletWallet12",
       vals := { item_id := "item1", access_token := "secret", institution_id := none,
                 institution_name := some "Bank", account_id := none,
                 account_name := some "Checking", account_mask := some "1234",
                 current_balance := some 500, available_balance := some 500 } }]
    [] "WalletWalletWalletWalletWallet12" "TokenxTokenxTokenxTokenxTokenx12" 500 "sig"
    _ (by decide) rfl

/-- C7: `/api/plaid/record-mint` inserts a completed record for every
schema-valid request from a wallet that has a BankLink, without comparing the
amount to the stored available balance: the hypotheses exhibit a stored
balance strictly below the requested amount, and they are not needed for the
success — the route never reads the balance columns. -/
theorem recordMintRoute_no_balance_check (plaidDb : List PlaidItemRow) (mintDb : List MintRow)
    (b : MintReqBody) (item : PlaidItemRow) (bal : ℚ)
    (hvalid : validMintBody b = true)
    (hitem : (plaidDb.filter (fun r => r.wallet_address = b.walletAddress)).head? = some item)
    (hbal : item.vals.available_balance = some bal)
    (hover : bal < b.amount) :
    recordMintRoute plaidDb mintDb b =
      (200, mintDb ++ [{ id := freshMintId mintDb, wallet_address := b.walletAddress,
                         plaid_item_id := some item.id, token_address := b.tokenAddress,
                         amount_minted := b.amount, status := "completed",
                         transaction_id := jsStrOrNull b.transactionId,
                         completed_at_set := true }]) := by
  unfold recordMintRoute
  rw [if_pos hvalid]
  unfold recordStablecoinMint
  rw [hitem]
  rfl

/-- Witness for C7: stored available balance 5, requested amount 999 — the
route still answers 200 and inserts the completed record. -/
theorem recordMintRoute_no_balance_check_witness :
    recordMintRoute
      [{ id := 1, wallet_address := "WalletWalletWalletWalletWallet12",
         vals := { item_id := "item1", access_token := "secret", institution_id := none,
                   institution_name := some "Bank", account_id := none,
                   account_name := some "Checking", account_mask := some "1234",
                   current_balance := some 5, available_balance := some 5 } }]
      []
      { walletAddress := "WalletWalletWalletWalletWallet12",
        tokenAddress := "TokenxTokenxTokenxTokenxTokenx12",
        amount := 999, transactionId := some "sig" } =
      (200, [{ id := 1, wallet_address := "WalletWalletWalletWalletWallet12",
               plaid_item_id := some 1, token_address := "TokenxTokenxTokenxTokenxTokenx12",
               amount_minted := 999, status := "completed",
               transaction_id := some "sig", completed_at_set := true }]) :=
  recordMintRoute_no_balance_check
    [{ id := 1, wallet_address := "WalletWalletWalletWalletWallet12",
       vals := { item_id := "item1", access_token := "secret", institution_id := none,
                 institution_name := some "Bank", account_id := none,
                 account_name := some "Checking", account_mask := some "1234",
                 current_balance := some 5, available_balance := some 5 } }]
    []
    { walletAddress := "WalletWalletWalletWalletWallet12",
      tokenAddress := "TokenxTokenxTokenxTokenxTokenx12",
      amount := 999, transactionId := some "sig" }
    { id := 1, wallet_address := "WalletWalletWalletWalletWallet12",
      vals := { item_id := "item1", access_token := "secret", institution_id := none,
                institution_name := some "Bank", account_id := none,
                account_name := some "Checking", account_mask := some "1234",
                current_balance := some 5, available_balance := some 5 } }
    5 (by decide) rfl rfl (by decide)

/-- `truthyNum` persists NULL exactly for a reported 0 or NULL balance. -/
theorem truthyNum_eq_none_iff (c : Option ℚ) :
    truthyNum c = none ↔ c = some 0 ∨ c = none := by
  cases c with
  | none => simp [truthyNum]
  | some x =>
      by_cases hx : x = 0
      · simp [truthyNum, hx]
      · simp [truthyNum, hx]

/-- C10 counterexample: live balances current = 500, available = 0.  The
returned `availableBalance` is 500 (the falsy-or fallback — this half of the
claim holds), but the persisted `available_balance` column becomes "500",
not NULL, refuting "the persisted current_balance/available_balance columns
are set to null whenever the reported value is 0". -/
theorem getBankAccountInfo_zero_not_null_counterexample :
    ((getBankAccountInfo
        [{ id := 1, wallet_address := "WalletWalletWalletWalletWallet12",
           vals := { item_id := "item1", access_token := "secret", institution_id := none,
                     institution_name := some "Bank", account_id := none,
                     account_name := some "Checking", account_mask := some "1234",
                     current_balance := none, available_balance := none } }]
        "WalletWalletWalletWalletWallet12"
        { current := some 500, available := some 0 }).1.map
          (fun i => i.availableBalance) = some (some 500)) ∧
    ((getBankAccountInfo
        [{ id := 1, wallet_address := "WalletWalletWalletWalletWallet12",
           vals := { item_id := "item1", access_token := "secret", institution_id := none,
                     institution_name := some "Bank", account_id := none,
                     account_name := some "Checking", account_mask := some "1234",
                     current_balance := none, available_balance := none } }]
        "WalletWalletWalletWalletWallet12"
        { current := some 500, available := some 0 }).2.map
          (fun r => (r.vals.current_balance, r.vals.available_balance)) =
      [(some 500, some 500)]) := by
  decide

/-- C10 (amended): when the refreshed snapshot reports available = 0,
`getBankAccountInfo` returns the current balance as `availableBalance`, and
the wallet's persisted `current_balance` and `available_balance` both become
the truthiness-guarded current balance — NULL exactly when the reported
current balance is 0 or NULL, its value otherwise (not unconditionally
NULL). -/
theorem getBankAccountInfo_zero_available (db : List PlaidItemRow) (w : String)
    (bal : Balances) (item : PlaidItemRow)
    (hitem : (db.filter (fun r => r.wallet_address = w)).head? = some item)
    (hzero : bal.available = some 0) :
    ∃ info, (getBankAccountInfo db w bal).1 = some info ∧
      info.availableBalance = bal.current ∧
      (∃ r ∈ (getBankAccountInfo db w bal).2, r.id = item.id ∧
        r.vals.current_balance = truthyNum bal.current ∧
        r.vals.available_balance = truthyNum bal.current) ∧
      (truthyNum bal.current = none ↔ bal.current = some 0 ∨ bal.current = none) := by
  have hmem : item ∈ db :=
    List.mem_of_mem_filter (List.mem_of_mem_head? (by rw [hitem]; rfl))
  have hcall : getBankAccountInfo db w bal =
      (some { institutionName := item.vals.institution_name,
              accountName := item.vals.account_name,
              accountMask := item.vals.account_mask, currentBalance := bal.current,
              availableBalance := jsOrNum bal.available bal.current },
       db.map fun x =>
        if x.id = item.id then
          { x with vals := { x.vals with
              current_balance := truthyNum bal.current,
              available_balance := match truthyNum bal.available with
                | some a => some a
                | none => truthyNum bal.current } }
        else x) := by
    unfold getBankAccountInfo
    rw [hitem]
  rw [hcall]
  refine ⟨_, rfl, ?_, ⟨_, List.mem_map_of_mem _ hmem, ?_⟩, truthyNum_eq_none_iff _⟩
  · show jsOrNum bal.available bal.current = bal.current
    rw [hzero]
    simp [jsOrNum]
  · rw [if_pos rfl, hzero]
    exact ⟨rfl, rfl, rfl⟩

/-- Witness for the amended C10 at current = 500, available = 0. -/
theorem getBankAccountInfo_zero_available_witness :
    ∃ info, (getBankAccountInfo
        [{ id := 1, wallet_address := "WalletWalletWalletWalletWallet12",
           vals := { item_id := "item1", access_token := "secret", institution_id := none,
                     institution_name := some "Bank", account_id := none,
                     account_name := some "Checking", account_mask := some "1234",
                     current_balance := none, available_balance := none } }]
        "WalletWalletWalletWalletWallet12"
        { current := some 500, available := some 0 }).1 = some info ∧
      info.availableBalance = some 500 ∧
      (∃ r ∈ (getBankAccountInfo
        [{ id := 1, wallet_address := "WalletWalletWalletWalletWallet12",
           vals := { item_id := "item1", access_token := "secret", institution_id := none,
                     institution_name := some "Bank", account_id := none,
                     account_name := some "Checking", account_mask := some "1234",
                     current_balance := none, available_balance := none } }]
        "WalletWalletWalletWalletWallet12"
        { current := some 500, available := some 0 }).2, r.id = 1 ∧
        r.vals.current_balance = truthyNum (some 500) ∧
        r.vals.available_balance = truthyNum (some 500)) ∧
      (truthyNum (some 500) = none ↔ (some 500 : Option ℚ) = some 0 ∨
        (some 500 : Option ℚ) = none) :=
  getBankAccountInfo_zero_available _ _ _
    { id := 1, wallet_address := "WalletWalletWalletWalletWallet12",
      vals := { item_id := "item1", access_token := "secret", institution_id := none,
                institution_name := some "Bank", account_id := none,
                account_name := some "Checking", account_mask := some "1234",
                current_balance := none, available_balance := none } }
    rfl rfl

/-- The supply string "100" with 0 decimals scales to exactly 100 base
units. -/
theorem scaleSupplyStr_hundred : scaleSupplyStr "100" 0 = some 100 := by
  have hp : parseDecimal "100" = some (mkRat 100 1) := by decide
  unfold scaleSupplyStr
  rw [hp]
  show bigIntFromNumber (mkRat 100 1 * 10 ^ 0) = some 100
  rw [pow_zero, mul_one]
  exact (bigIntFromNumber_eq_some_iff _ _).mpr (by decide)

/-- C3: when the supply scaling succeeds, `createSPLToken` builds one
transaction whose instructions are, in order: (a) `createAccount` funding the
mint account with the rent-exemption minimum, (b) `initializeMint` with the
requested decimals and the optional freeze authority, (c) creation of the
associated token account of the resolved recipient, (d) `mintTo` crediting
that account with the scaled supply — and (e) a `setAuthority` transfer to
the recipient appended exactly when the caller chose to transfer mint
authority and the resolved recipient differs from the payer. -/
theorem createSPLTokenTx_structure (parsePK : String → Option PubKey)
    (ata : PubKey → PubKey → PubKey) (payer mintAccount : PubKey)
    (rentExemptBalance : ℕ) (form : TokenFormData) (supplyUnits : ℤ)
    (hscale : scaleSupplyStr form.tokenSupply form.tokenDecimals = some supplyUnits) :
    createSPLTokenTx parsePK ata payer mintAccount rentExemptBalance form =
      some (if form.mintAuthority = MintAuthorityChoice.transfer ∧
              resolveRecipient parsePK form.recipientAddress payer ≠ payer then
        [Instr.createAccount payer mintAccount MINT_SIZE rentExemptBalance tokenProgramId,
         Instr.initializeMint mintAccount form.tokenDecimals payer
           (if form.freezeAuthority then some payer else none),
         Instr.createAssociatedTokenAccount payer
           (ata mintAccount (resolveRecipient parsePK form.recipientAddress payer))
           (resolveRecipient parsePK form.recipientAddress payer) mintAccount,
         Instr.mintTo mintAccount
           (ata mintAccount (resolveRecipient parsePK form.recipientAddress payer)) payer
           supplyUnits,
         Instr.setAuthority mintAccount payer SplAuthorityType.MintTokens
           (resolveRecipient parsePK form.recipientAddress payer)]
      else
        [Instr.createAccount payer mintAccount MINT_SIZE rentExemptBalance tokenProgramId,
         Instr.initializeMint mintAccount form.tokenDecimals payer
           (if form.freezeAuthority then some payer else none),
         Instr.createAssociatedTokenAccount payer
           (ata mintAccount (resolveRecipient parsePK form.recipientAddress payer))
           (resolveRecipient parsePK form.recipientAddress payer) mintAccount,
         Instr.mintTo mintAccount
           (ata mintAccount (resolveRecipient parsePK form.recipientAddress payer)) payer
           supplyUnits]) := by
  unfold createSPLTokenTx
  rw [hscale]
  rfl

/-- Witness for C3: supply "100", 0 decimals, empty recipient (resolves to
the payer), keep mint authority — the built transaction is the four base
instructions with amount 100 and no authority transfer. -/
theorem createSPLTokenTx_structure_witness :
    createSPLTokenTx samplePK (fun m o => m ++ o) "PayerPayerPayerPayerPayerPayer12"
      "MintxxMintxxMintxxMintxxMintxx12" 1000000
      { tokenName := "Token", tokenSymbol := "TOK", tokenDescription := "",
        tokenSupply := "100", tokenDecimals := 0,
        mintAuthority := MintAuthorityChoice.keep,
        recipientAddress := "", freezeAuthority := false } =
      some [Instr.createAccount "PayerPayerPayerPayerPayerPayer12"
              "MintxxMintxxMintxxMintxxMintxx12" MINT_SIZE 1000000 tokenProgramId,
            Instr.initializeMint "MintxxMintxxMintxxMintxxMintxx12" 0
              "PayerPayerPayerPayerPayerPayer12" none,
            Instr.createAssociatedTokenAccount "PayerPayerPayerPayerPayerPayer12"
              ("MintxxMintxxMintxxMintxxMintxx12" ++ "PayerPayerPayerPayerPayerPayer12")
              "PayerPayerPayerPayerPayerPayer12" "MintxxMintxxMintxxMintxxMintxx12",
            Instr.mintTo "MintxxMintxxMintxxMintxxMintxx12"
              ("MintxxMintxxMintxxMintxxMintxx12" ++ "PayerPayerPayerPayerPayerPayer12")
              "PayerPayerPayerPayerPayerPayer12" 100] := by
  have h := createSPLTokenTx_structure samplePK (fun m o => m ++ o)
    "PayerPayerPayerPayerPayerPayer12" "MintxxMintxxMintxxMintxxMintxx12" 1000000
    { tokenName := "Token", tokenSymbol := "TOK", tokenDescription := "",
      tokenSupply := "100", tokenDecimals := 0,
      mintAuthority := MintAuthorityChoice.keep,
      recipientAddress := "", freezeAuthority := false } 100 scaleSupplyStr_hundred
  exact h

/-- Every member's id is at most the running maximum. -/
theorem le_foldr_max_of_mem {l : List ℕ} {n : ℕ} (h : n ∈ l) : n ≤ l.foldr max 0 := by
  induction l with
  | nil => cases h
  | cons a t ih =>
      rcases List.mem_cons.mp h with rfl | h2
      · exact le_max_left _ _
      · exact le_trans (ih h2) (le_max_right _ _)

/-- The freshly generated serial id collides with no existing row. -/
theorem freshId_not_mem (db : List PlaidItemRow) (r : PlaidItemRow) (hr : r ∈ db) :
    r.id ≠ freshId db := by
  have h : r.id ≤ (db.map PlaidItemRow.id).foldr max 0 :=
    le_foldr_max_of_mem (List.mem_map_of_mem _ hr)
  unfold freshId
  omega

/-- With pairwise-distinct ids, a shared id forces row equality. -/
theorem eq_of_mem_of_id_eq {db : List PlaidItemRow} (hwf : WFPlaidDb db)
    {x r : PlaidItemRow} (hx : x ∈ db) (hr : r ∈ db) (hid : x.id = r.id) : x = r := by
  have hp : db.Pairwise (fun a b => a.id ≠ b.id ∧ a.wallet_address ≠ b.wallet_address) := hwf
  clear hwf
  revert hx hr
  induction hp with
  | nil =>
      intro hx _hr
      cases hx
  | cons h1 _h2 ih =>
      intro hx hr
      rcases List.mem_cons.mp hx with rfl | hx2
      · rcases List.mem_cons.mp hr with rfl | hr2
        · rfl
        · exact absurd hid (h1 r hr2).1
      · rcases List.mem_cons.mp hr with rfl | hr2
        · exact absurd hid (Ne.symm (h1 x hx2).1)
        · exact ih hx2 hr2

/-- With the unique wallet index, the wallet's filter is exactly its head. -/
theorem filter_wallet_eq_single {db : List PlaidItemRow} (hwf : WFPlaidDb db) {w : String}
    {r : PlaidItemRow}
    (hhead : (db.filter (fun x => x.wallet_address = w)).head? = some r) :
    db.filter (fun x => x.wallet_address = w) = [r] := by
  cases hfl : db.filter (fun x => x.wallet_address = w) with
  | nil =>
      rw [hfl] at hhead
      exact Option.noConfusion hhead
  | cons a t =>
      rw [hfl] at hhead
      injection hhead with hhead
      subst hhead
      cases t with
      | nil => rfl
      | cons b t2 =>
          exfalso
          have hpw : (db.filter (fun x => x.wallet_address = w)).Pairwise
              (fun a b => a.id ≠ b.id ∧ a.wallet_address ≠ b.wallet_address) :=
            List.Pairwise.filter _ hwf
          rw [hfl] at hpw
          have hR := (List.pairwise_cons.mp hpw).1 b (List.mem_cons_self b t2)
          have hrmem : a ∈ db.filter (fun x => x.wallet_address = w) := by
            rw [hfl]
            exact List.mem_cons_self _ _
          have hbmem : b ∈ db.filter (fun x => x.wallet_address = w) := by
            rw [hfl]
            exact List.mem_cons_of_mem _ (List.mem_cons_self _ _)
          have hrw : a.wallet_address = w := of_decide_eq_true (List.mem_filter.mp hrmem).2
          have hbw : b.wallet_address = w := of_decide_eq_true (List.mem_filter.mp hbmem).2
          exact hR.2 (hrw.trans hbw.symm)

/-- `updateRow` never changes the id column. -/
theorem updateRow_id (w : String) (v : PlaidRowVals) (i : ℕ) (x : PlaidItemRow) :
    (updateRow w v i x).id = x.id := by
  unfold updateRow
  by_cases h : x.id = i <;> simp [h]

/-- `updateRow` leaves unmatched rows untouched. -/
theorem updateRow_of_ne (w : String) (v : PlaidRowVals) (i : ℕ) (x : PlaidItemRow)
    (h : x.id ≠ i) : updateRow w v i x = x := by
  unfold updateRow
  exact if_neg h

/-- `updateRow` overwrites the matched row with the new payload. -/
theorem updateRow_of_eq (w : String) (v : PlaidRowVals) (i : ℕ) (x : PlaidItemRow)
    (h : x.id = i) :
    updateRow w v i x = { id := x.id, wallet_address := w, vals := v } := by
  unfold updateRow
  exact if_pos h

/-- The upsert preserves well-formedness of the table. -/
theorem upsertPlaidItem_wf {db : List PlaidItemRow} (w : String) (v : PlaidRowVals)
    (hwf : WFPlaidDb db) : WFPlaidDb (upsertPlaidItem db w v) := by
  unfold upsertPlaidItem
  cases hfind : (db.filter (fun r => r.wallet_address = w)).head? with
  | none =>
      have hnil : db.filter (fun r => r.wallet_address = w) = [] :=
        List.head?_eq_none_iff.mp hfind
      have hno : ∀ a ∈ db, a.wallet_address ≠ w := by
        intro a ha haw
        exact (List.filter_eq_nil_iff.mp hnil) a ha (decide_eq_true haw)
      refine List.pairwise_append.mpr ⟨hwf, List.pairwise_singleton _ _, ?_⟩
      intro a ha b hb
      rw [List.mem_singleton.mp hb]
      exact ⟨freshId_not_mem db a ha, hno a ha⟩
  | some r =>
      have hrdb : r ∈ db :=
        List.mem_of_mem_filter (List.mem_of_mem_head? (by rw [hfind]; rfl))
      have hfil : db.filter (fun x => x.wallet_address = w) = [r] :=
        filter_wallet_eq_single hwf hfind
      have honly : ∀ b ∈ db, b.wallet_address = w → b = r := by
        intro b hb hbw
        have hbf : b ∈ db.filter (fun x => x.wallet_address = w) :=
          List.mem_filter.mpr ⟨hb, decide_eq_true hbw⟩
        rw [hfil] at hbf
        exact List.mem_singleton.mp hbf
      refine List.pairwise_map.mpr (List.Pairwise.imp_of_mem ?_ hwf)
      intro a b ha hb hab
      refine ⟨?_, ?_⟩
      · rw [updateRow_id, updateRow_id]
        exact hab.1
      · by_cases haid : a.id = r.id
        · by_cases hbid : b.id = r.id
          · have haeq : a = r := eq_of_mem_of_id_eq hwf ha hrdb haid
            have hbeq : b = r := eq_of_mem_of_id_eq hwf hb hrdb hbid
            exact absurd (by rw [haeq, hbeq]) hab.1
          · rw [updateRow_of_eq _ _ _ _ haid, updateRow_of_ne _ _ _ _ hbid]
            intro hwcontra
            exact hbid (congrArg PlaidItemRow.id (honly b hb hwcontra.symm))
        · by_cases hbid : b.id = r.id
          · rw [updateRow_of_ne _ _ _ _ haid, updateRow_of_eq _ _ _ _ hbid]
            intro hwcontra
            exact haid (congrArg PlaidItemRow.id (honly a ha hwcontra))
          · rw [updateRow_of_ne _ _ _ _ haid, updateRow_of_ne _ _ _ _ hbid]
            exact hab.2

/-- After one upsert, the wallet's rows are exactly one row holding the
written payload. -/
theorem upsertPlaidItem_filter_self {db : List PlaidItemRow} (w : String) (v : PlaidRowVals)
    (hwf : WFPlaidDb db) :
    ∃ i, (upsertPlaidItem db w v).filter (fun x => x.wallet_address = w) =
      [{ id := i, wallet_address := w, vals := v }] := by
  unfold upsertPlaidItem
  cases hfind : (db.filter (fun r => r.wallet_address = w)).head? with
  | none =>
      refine ⟨freshId db, ?_⟩
      have hnil : db.filter (fun r => r.wallet_address = w) = [] :=
        List.head?_eq_none_iff.mp hfind
      rw [List.filter_append, hnil]
      simp
  | some r =>
      refine ⟨r.id, ?_⟩
      have hrmemf : r ∈ db.filter (fun x => x.wallet_address = w) :=
        List.mem_of_mem_head? (by rw [hfind]; rfl)
      have hrdb : r ∈ db := List.mem_of_mem_filter hrmemf
      have hrw : r.wallet_address = w := of_decide_eq_true (List.mem_filter.mp hrmemf).2
      have hfil : db.filter (fun x => x.wallet_address = w) = [r] :=
        filter_wallet_eq_single hwf hfind
      rw [List.filter_map]
      have hcong : db.filter ((fun x => decide (x.wallet_address = w)) ∘ updateRow w v r.id) =
          db.filter (fun x => decide (x.wallet_address = w)) := by
        apply List.filter_congr
        intro x hx
        by_cases hid : x.id = r.id
        · have hxeq : x = r := eq_of_mem_of_id_eq hwf hx hrdb hid
          have h1 : (updateRow w v r.id x).wallet_address = w := by
            rw [updateRow_of_eq _ _ _ _ hid]
          have h2 : x.wallet_address = w := by rw [hxeq]; exact hrw
          simp [Function.comp, h1, h2]
        · have h1 : updateRow w v r.id x = x := updateRow_of_ne _ _ _ _ hid
          simp [Function.comp, h1]
      rw [hcong, hfil]
      simp [updateRow_of_eq w v r.id r rfl]

/-- Folding a nonempty sequence of upserts for one wallet leaves exactly one
row for it, holding the last payload. -/
theorem upsert_foldl_last (calls : List PlaidRowVals) (w : String) :
    ∀ (db : List PlaidItemRow), WFPlaidDb db → ∀ (hne : calls ≠ []),
      ((calls.foldl (fun d v => upsertPlaidItem d w v) db).filter
        (fun r => r.wallet_address = w)).map PlaidItemRow.vals = [calls.getLast hne] := by
  induction calls with
  | nil =>
      intro db _hwf hne
      exact absurd rfl hne
  | cons c cs ih =>
      intro db hwf _hne
      cases cs with
      | nil =>
          simp only [List.foldl_cons, List.foldl_nil]
          obtain ⟨i, hi⟩ := upsertPlaidItem_filter_self w c hwf
          rw [hi]
          rfl
      | cons c2 cs2 =>
          simp only [List.foldl_cons]
          have h2 := ih (upsertPlaidItem db w c) (upsertPlaidItem_wf w c hwf)
            (List.cons_ne_nil c2 cs2)
          rw [List.getLast_cons (List.cons_ne_nil c2 cs2)]
          exact h2

/-- C4: starting from any well-formed table, after any nonempty sequence of
successful completeLink (exchangePublicToken) upserts for one wallet there is
exactly one plaid_items row for that wallet, and its payload columns hold the
values of the most recent call — a second linking attempt replaces the
first. -/
theorem completeLink_single_row (db : List PlaidItemRow) (w : String)
    (calls : List PlaidRowVals) (hwf : WFPlaidDb db) (hne : calls ≠ []) :
    ((calls.foldl (fun d v => upsertPlaidItem d w v) db).filter
        (fun r => r.wallet_address = w)).map PlaidItemRow.vals = [calls.getLast hne] :=
  upsert_foldl_last calls w db hwf hne

/-- Witness for C4: two successive exchanges for one wallet starting from the
empty table leave exactly one row, carrying the second call's payload. -/
theorem completeLink_single_row_witness :
    (([({ item_id := "item1", access_token := "secretA", institution_id := none,
          institution_name := some "BankA", account_id := none,
          account_name := some "Checking", account_mask := some "1111",
          current_balance := some 100, available_balance := some 100 } : PlaidRowVals),
        { item_id := "item2", access_token := "secretB", institution_id := none,
          institution_name := some "BankB", account_id := none,
          account_name := some "Savings", account_mask := some "2222",
          current_balance := some 900, available_balance := some 900 }].foldl
        (fun d v => upsertPlaidItem d "WalletWalletWalletWalletWallet12" v) []).filter
        (fun r => r.wallet_address = "WalletWalletWalletWalletWallet12")).map
        PlaidItemRow.vals =
      [{ item_id := "item2", access_token := "secretB", institution_id := none,
         institution_name := some "BankB", account_id := none,
         account_name := some "Savings", account_mask := some "2222",
         current_balance := some 900, available_balance := some 900 }] :=
  completeLink_single_row [] "WalletWalletWalletWalletWallet12"
    [{ item_id := "item1", access_token := "secretA", institution_id := none,
       institution_name := some "BankA", account_id := none,
       account_name := some "Checking", account_mask := some "1111",
       current_balance := some 100, available_balance := some 100 },
     { item_id := "item2", access_token := "secretB", institution_id := none,
       institution_name := some "BankB", account_id := none,
       account_name := some "Savings", account_mask := some "2222",
       current_balance := some 900, available_balance := some 900 }]
    List.Pairwise.nil (by decide)

end Munin
